import Mathlib

/-!
Shallow embedding of `stagg_kettle.py` (Fellow Stagg EKG+ BLE/MQTT bridge),
covering the protocol core: the notification framing state machine in
`StaggKettle.MyDelegate.handleNotification`, the side-effecting property
setters that diff against the mirrored device state and publish on change,
and the outgoing command encoding (`set_temperature`, fixed command
sequences, `on_message`).

Python bytes are modelled as `List Nat`; MQTT publishes as `(topic, value)`
pairs; a raised `struct.error` is modelled as `Except.error` carrying the
delegate state at the point of the raise (Python mutates the object in
place, so the state visible after the exception is the one carried).
-/

namespace StaggKettle

/-- Python value stored in a delegate field: `None`, an int, or a str. -/
inductive Value where
  | none : Value
  | num : Nat → Value
  | str : String → Value
deriving DecidableEq, Repr

/-- `INIT_SEQ = bytes.fromhex('efdd0b3031323334353637383930313233349a6d')`. -/
def INIT_SEQ : List Nat :=
  [0xef, 0xdd, 0x0b, 0x30, 0x31, 0x32, 0x33, 0x34, 0x35, 0x36, 0x37, 0x38,
   0x39, 0x30, 0x31, 0x32, 0x33, 0x34, 0x9a, 0x6d]

/-- `POWER_ON_SEQ = bytes.fromhex('efdd0a0000010100')`. -/
def POWER_ON_SEQ : List Nat := [0xef, 0xdd, 0x0a, 0x00, 0x00, 0x01, 0x01, 0x00]

/-- `POWER_OFF_SEQ = bytes.fromhex('efdd0a0000000000')`. -/
def POWER_OFF_SEQ : List Nat := [0xef, 0xdd, 0x0a, 0x00, 0x00, 0x00, 0x00, 0x00]

/-- `TARGET_TEMP_HDR = bytes.fromhex('efdd0a')`. -/
def TARGET_TEMP_HDR : List Nat := [0xef, 0xdd, 0x0a]

/-- The `StaggKettle.MessageTypes` IntEnum values. -/
def MessageTypes.POWER : Nat := 0
def MessageTypes.HOLD : Nat := 1
def MessageTypes.TARGET_TEMP : Nat := 2
def MessageTypes.CURRENT_TEMP : Nat := 3
def MessageTypes.COUNTDOWN : Nat := 4
def MessageTypes.UNK_1 : Nat := 5
def MessageTypes.HOLDING : Nat := 6
def MessageTypes.UNK_2 : Nat := 7
def MessageTypes.KETTLE_LIFTED : Nat := 8

/-- An MQTT publish: topic and payload value. -/
abbrev Publish := String × Value

/-- Mutable fields of `StaggKettle.MyDelegate`. -/
structure DelegateState where
  power : Value
  target_temp : Value
  current_temp : Value
  target_temp_scale : Value
  current_temp_scale : Value
  last_message_type : Option Nat
  changed : Bool
deriving DecidableEq, Repr

/-- `MyDelegate.__init__`: every field `None`, no pending type, not changed. -/
def initDelegate : DelegateState :=
  { power := Value.none
    target_temp := Value.none
    current_temp := Value.none
    target_temp_scale := Value.none
    current_temp_scale := Value.none
    last_message_type := none
    changed := false }

/-- The `power` property setter: publish to the switch state topic and set
the changed flag when the value differs, then assign. -/
def set_power (s : DelegateState) (v : Value) : DelegateState × List Publish :=
  if s.power = v then ({ s with power := v }, [])
  else ({ s with power := v, changed := true },
        [("homeassistant/switch/kettle/state", v)])

/-- The `target_temp` property setter. -/
def set_target_temp (s : DelegateState) (v : Value) : DelegateState × List Publish :=
  if s.target_temp = v then ({ s with target_temp := v }, [])
  else ({ s with target_temp := v, changed := true },
        [("kitchen/kettle/temperature/target", v)])

/-- The `current_temp` property setter: raw values below 40 are replaced by
the string `"--"` before the diff (the kettle reports 32 when off). -/
def set_current_temp (s : DelegateState) (raw : Nat) : DelegateState × List Publish :=
  let v := if raw < 40 then Value.str "--" else Value.num raw
  if s.current_temp = v then ({ s with current_temp := v }, [])
  else ({ s with current_temp := v, changed := true },
        [("homeassistant/sensor/kettle/temperature", v)])

/-- `'°F' if value == 1 else '°C'`, shared by both scale setters. -/
def decodeScale (b : Nat) : Value :=
  if b = 1 then Value.str "°F" else Value.str "°C"

/-- The `target_temp_scale` property setter. -/
def set_target_temp_scale (s : DelegateState) (b : Nat) : DelegateState × List Publish :=
  let scale := decodeScale b
  if s.target_temp_scale = scale then ({ s with target_temp_scale := scale }, [])
  else ({ s with target_temp_scale := scale, changed := true },
        [("kitchen/kettle/temperature/target/scale", scale)])

/-- The `current_temp_scale` property setter. -/
def set_current_temp_scale (s : DelegateState) (b : Nat) : DelegateState × List Publish :=
  let scale := decodeScale b
  if s.current_temp_scale = scale then ({ s with current_temp_scale := scale }, [])
  else ({ s with current_temp_scale := scale, changed := true },
        [("kitchen/kettle/temperature/scale", scale)])

/-- The body of `handleNotification` when `last_message_type` is pending.
`struct.unpack('Bxx', data)` demands exactly 3 bytes and yields `data[0]`;
`struct.unpack('BBxx', data)` demands exactly 4 bytes and yields
`(data[0], data[1])`; a length mismatch raises `struct.error` before
`last_message_type` is reset, so the error carries the unmodified state. -/
def processPending (s : DelegateState) (t : Nat) (data : List Nat) :
    Except DelegateState (DelegateState × List Publish) :=
  if t = MessageTypes.POWER then
    if data.length = 3 then
      let power_value := data.getD 0 0
      let pr :=
        if power_value = 0 then set_power s (Value.str "off")
        else if power_value = 1 then set_power s (Value.str "on")
        else (s, [])
      .ok ({ pr.1 with last_message_type := none }, pr.2)
    else .error s
  else if t = MessageTypes.TARGET_TEMP then
    if data.length = 4 then
      let r1 := set_target_temp s (Value.num (data.getD 0 0))
      let r2 := set_target_temp_scale r1.1 (data.getD 1 0)
      .ok ({ r2.1 with last_message_type := none }, r1.2 ++ r2.2)
    else .error s
  else if t = MessageTypes.CURRENT_TEMP then
    if data.length = 4 then
      let r1 := set_current_temp s (data.getD 0 0)
      let r2 := set_current_temp_scale r1.1 (data.getD 1 0)
      .ok ({ r2.1 with last_message_type := none }, r1.2 ++ r2.2)
    else .error s
  else
    .ok ({ s with last_message_type := none }, [])

/-- `MyDelegate.handleNotification(cHandle, data)`.  With a pending message
type the chunk is a payload (`processPending`); otherwise a chunk is a
header exactly when it starts with `EF DD` and is 3 bytes long, its third
byte becoming the pending type.  The trailing `if self.changed: ...;
self.changed = False` leaves `changed` false on every non-raising path. -/
def handleNotification (s : DelegateState) (data : List Nat) :
    Except DelegateState (DelegateState × List Publish) :=
  match s.last_message_type with
  | some t =>
    match processPending s t data with
    | .ok r => .ok ({ r.1 with changed := false }, r.2)
    | .error e => .error e
  | none =>
    if data.length = 3 ∧ data.take 2 = [0xef, 0xdd] then
      .ok ({ s with last_message_type := some (data.getD 2 0), changed := false }, [])
    else
      .ok ({ s with changed := false }, [])

/-- Feed a sequence of notification chunks, accumulating publishes, and
stopping at the first raised `struct.error` (the exception propagates out
of the delegate). -/
def runChunks (s : DelegateState) : List (List Nat) →
    Except DelegateState (DelegateState × List Publish)
  | [] => .ok (s, [])
  | c :: cs =>
    match handleNotification s c with
    | .ok r =>
      match runChunks r.1 cs with
      | .ok r' => .ok (r'.1, r.2 ++ r'.2)
      | .error e => .error e
    | .error e => .error e

/-- `struct.pack` format `'B'`: one byte, raising unless the value fits. -/
def packB (n : Nat) : Option Nat := if n < 256 then some n else none

/-- `StaggKettle.set_temperature(desired_temp)`: the written frame, or
`none` when `struct.pack('BBBB', ...)` raises.  The checksum expression is
`seq_num + desired_temp % 256` (Python precedence: `%` binds first). -/
def set_temperature (desired_temp : Nat) : Option (List Nat) :=
  let seq_num := 0
  match packB seq_num, packB desired_temp,
        packB (seq_num + desired_temp % 256), packB 1 with
  | some b0, some b1, some b2, some b3 => some (TARGET_TEMP_HDR ++ [b0, b1, b2, b3])
  | _, _, _, _ => none

/-- Characteristic writes performed by `connect()` when not yet connected:
the `INIT_SEQ` handshake (MQTT setup is outside this model). -/
def connect_writes (connected : Bool) : List (List Nat) :=
  if connected then [] else [INIT_SEQ]

/-- `StaggKettle.power_on`: connect if needed, then write `POWER_ON_SEQ`. -/
def power_on_writes (connected : Bool) : List (List Nat) :=
  connect_writes connected ++ [POWER_ON_SEQ]

/-- `StaggKettle.power_off`: connect if needed, then write `POWER_OFF_SEQ`. -/
def power_off_writes (connected : Bool) : List (List Nat) :=
  connect_writes connected ++ [POWER_OFF_SEQ]

/-- `StaggKettle.on_message`: returns the characteristic writes issued and
the MQTT publishes made for a received command payload string. -/
def on_message (connected : Bool) (payload : String) :
    List (List Nat) × List (String × String) :=
  let writes :=
    if payload = "on" then power_on_writes connected
    else if payload = "off" then power_off_writes connected
    else []
  (writes, [("homeassistant/switch/kettle/state", payload)])

/-- Lower-case hex digit for a nibble. -/
def hexDigit (n : Nat) : Char :=
  if n < 10 then Char.ofNat (48 + n) else Char.ofNat (87 + n)

/-- Lower-case hex rendering of a byte list, as `bytes.hex()` would give. -/
def bytesHex (bs : List Nat) : String :=
  String.mk ((bs.map fun b => [hexDigit (b / 16), hexDigit (b % 16)]).flatten)

/-!  ## Theorems for the claims -/

/-- C1 (counterexample): `SetTemperature(101)` does NOT fail: the code has
no bounds check, so a full frame `EF DD 0A 00 65 65 01` is produced and
written, refuting "out-of-range values fail with an EncodingError and no
frame is produced". -/
theorem C1_cex_set_temperature_101_produces_frame :
    set_temperature 101 = some [0xef, 0xdd, 0x0a, 0x00, 0x65, 0x65, 0x01] := by
  decide

/-- C1 (amended): `set_temperature` performs no device-bounds validation at
all.  Every value that fits in a byte — in range or not — encodes to
header + `[0, value, value % 256, 1]`; encoding fails only when
`struct.pack('B', ...)` rejects a value ≥ 256. -/
theorem C1_set_temperature_no_range_validation (v : Nat) :
    (v < 256 → set_temperature v = some (TARGET_TEMP_HDR ++ [0, v, v % 256, 1]))
    ∧ (256 ≤ v → set_temperature v = none) := by
  constructor
  · intro hv
    have hm : v % 256 < 256 := Nat.mod_lt _ (by decide)
    simp [set_temperature, packB, hv, hm]
  · intro hv
    have hv' : ¬ v < 256 := by omega
    simp [set_temperature, packB, hv']

/-- C1 (witness): value 101 is accepted and encoded; value 300 overflows
the byte pack and fails. -/
theorem C1_witness :
    set_temperature 101 = some (TARGET_TEMP_HDR ++ [0, 101, 101 % 256, 1])
    ∧ set_temperature 300 = none :=
  ⟨(C1_set_temperature_no_range_validation 101).1 (by decide),
   (C1_set_temperature_no_range_validation 300).2 (by decide)⟩

/-- C4: for every in-range value (40–100), the encoded frame is the fixed
3-byte header `EF DD 0A` followed by
`[sequenceNumber = 0, value, (sequenceNumber + value) % 256, flag = 1]`. -/
theorem C4_set_temperature_in_range_encoding (v : Nat) (h1 : 40 ≤ v) (h2 : v ≤ 100) :
    set_temperature v = some (TARGET_TEMP_HDR ++ [0, v, (0 + v) % 256, 1]) := by
  have hv : v < 256 := by omega
  have hm : v % 256 < 256 := Nat.mod_lt _ (by decide)
  simp [set_temperature, packB, hv, hm]

/-- C4 (witness): `SetTemperature(100)` encodes to
`EF DD 0A 00 64 64 01` (0x64 = 100). -/
theorem C4_witness :
    set_temperature 100 = some [0xef, 0xdd, 0x0a, 0x00, 0x64, 0x64, 0x01] :=
  C4_set_temperature_in_range_encoding 100 (by decide) (by decide)

/-- C8 (counterexample): the Init constant in the code does not match the
claimed wire-table digit string
`efdd0b30313233343536373839303132333449a6d` (which has an odd number of
hex digits — a spurious extra `4`). -/
theorem C8_cex_init_seq_differs_from_claimed_string :
    bytesHex INIT_SEQ ≠ "efdd0b30313233343536373839303132333449a6d" := by
  decide

/-- C8 (amended): the three command constants are fixed byte strings with
no runtime computation; power-on and power-off match the wire table, and
the Init constant is `EF DD 0B 3031323334353637383930313233349A6D` (the
wire-table row for Init contains a spurious extra `4`). -/
theorem C8_fixed_command_constants :
    bytesHex POWER_ON_SEQ = "efdd0a0000010100"
    ∧ bytesHex POWER_OFF_SEQ = "efdd0a0000000000"
    ∧ bytesHex INIT_SEQ = "efdd0b3031323334353637383930313233349a6d" := by
  refine ⟨by decide, by decide, by decide⟩

/-- C10: `on_message` always republishes the received payload verbatim to
the switch state topic, and when the payload is neither `"on"` nor `"off"`
no command frame is written to the device. -/
theorem C10_on_message_echo (connected : Bool) (p : String) :
    (on_message connected p).2 = [("homeassistant/switch/kettle/state", p)]
    ∧ (p ≠ "on" → p ≠ "off" → (on_message connected p).1 = []) := by
  refine ⟨rfl, fun h1 h2 => ?_⟩
  simp [on_message, h1, h2]

/-- C10 (witness): an unrecognized payload `"hello"` is echoed to the
state topic while no device write occurs. -/
theorem C10_witness :
    (on_message true "hello").2 = [("homeassistant/switch/kettle/state", "hello")]
    ∧ (on_message true "hello").1 = [] :=
  ⟨(C10_on_message_echo true "hello").1,
   (C10_on_message_echo true "hello").2 (by decide) (by decide)⟩

/-- Unfolding `handleNotification` when a message type is pending. -/
theorem handleNotification_pending (s : DelegateState) (t : Nat) (d : List Nat)
    (hp : s.last_message_type = some t) :
    handleNotification s d =
      match processPending s t d with
      | .ok r => .ok ({ r.1 with changed := false }, r.2)
      | .error e => .error e := by
  unfold handleNotification
  rw [hp]

/-- `(set_current_temp s raw).1.current_temp` is the clamped value. -/
theorem set_current_temp_fst (s : DelegateState) (raw : Nat) :
    ((set_current_temp s raw).1).current_temp =
      if raw < 40 then Value.str "--" else Value.num raw := by
  unfold set_current_temp
  dsimp only
  split <;> split <;> rfl

/-- The scale setter never touches `current_temp`. -/
theorem set_current_temp_scale_preserves (s : DelegateState) (b : Nat) :
    ((set_current_temp_scale s b).1).current_temp = s.current_temp := by
  unfold set_current_temp_scale
  dsimp only
  split <;> rfl

/-- C7: with no message type pending (`AwaitingHeader`), exactly the chunks
of total length 3 that begin with the magic bytes `EF DD` cause a
transition, recording the third byte as the single pending message type;
every other chunk is discarded with no transition, no publish and no
error.  (The pending type is one `Option` field, so at most one message
type is ever pending.) -/
theorem C7_awaiting_header_transition (s : DelegateState) (d : List Nat)
    (h : s.last_message_type = none) :
    (d.length = 3 ∧ d.take 2 = [0xef, 0xdd] →
      handleNotification s d =
        .ok ({ s with last_message_type := some (d.getD 2 0), changed := false }, []))
    ∧ (¬(d.length = 3 ∧ d.take 2 = [0xef, 0xdd]) →
      handleNotification s d = .ok ({ s with changed := false }, [])) := by
  constructor <;> intro hc <;> simp [handleNotification, h, hc]

/-- C7 (witness): from the initial state, the header `EF DD 02` sets
pending type 2, and the non-header `AA BB CC` is discarded. -/
theorem C7_witness :
    handleNotification initDelegate [0xef, 0xdd, 0x02] =
      .ok ({ initDelegate with last_message_type := some 2, changed := false }, [])
    ∧ handleNotification initDelegate [0xaa, 0xbb, 0xcc] =
      .ok ({ initDelegate with changed := false }, []) :=
  ⟨(C7_awaiting_header_transition initDelegate [0xef, 0xdd, 0x02] rfl).1 (by decide),
   (C7_awaiting_header_transition initDelegate [0xaa, 0xbb, 0xcc] rfl).2 (by decide)⟩

/-- C9: for every pending message type other than POWER, TARGET_TEMP and
CURRENT_TEMP (HOLD, COUNTDOWN, 5, 6, 7, KETTLE_LIFTED), any chunk is
discarded: no publish, every state field unchanged, the pending type
cleared, and no error raised. -/
theorem C9_unknown_opcode_discard (s : DelegateState) (t : Nat) (d : List Nat)
    (hp : s.last_message_type = some t) (ht : t ∈ [1, 4, 5, 6, 7, 8]) :
    handleNotification s d =
      .ok ({ s with last_message_type := none, changed := false }, []) := by
  rw [handleNotification_pending s t d hp]
  fin_cases ht <;>
    simp [processPending, MessageTypes.POWER, MessageTypes.TARGET_TEMP,
      MessageTypes.CURRENT_TEMP]

/-- C9 (witness): pending `KETTLE_LIFTED` with an arbitrary chunk returns
the machine to the initial state with no publish. -/
theorem C9_witness :
    handleNotification
        { initDelegate with last_message_type := some MessageTypes.KETTLE_LIFTED }
        [0x01, 0x02] =
      .ok (initDelegate, []) :=
  C9_unknown_opcode_discard
    { initDelegate with last_message_type := some MessageTypes.KETTLE_LIFTED }
    8 [0x01, 0x02] rfl (by decide)

/-- C2 (counterexample): a 4-byte chunk while POWER is pending is NOT
discarded: `struct.unpack('Bxx', data)` raises `struct.error` and the
pending message type is not cleared, refuting "the chunk is discarded, the
machine returns to AwaitingHeader, and the decode path does not throw". -/
theorem C2_cex_power_payload_length_4_raises :
    handleNotification { initDelegate with last_message_type := some MessageTypes.POWER }
        [0x01, 0x00, 0x00, 0x00] =
      .error { initDelegate with last_message_type := some MessageTypes.POWER } := rfl

/-- C2 (amended): while POWER is pending a chunk whose length is not 3 —
and while TARGET_TEMP or CURRENT_TEMP is pending a chunk whose length is
not 4 — makes `struct.unpack` raise `struct.error`; the exception leaves
the delegate state untouched, so the pending message type is NOT cleared.
Only for the other message types is every chunk discarded with a return to
the header-awaiting state (`C9_unknown_opcode_discard`). -/
theorem C2_payload_wrong_length_raises (s : DelegateState) (t : Nat) (d : List Nat)
    (hp : s.last_message_type = some t) :
    (t = MessageTypes.POWER → d.length ≠ 3 → handleNotification s d = .error s)
    ∧ ((t = MessageTypes.TARGET_TEMP ∨ t = MessageTypes.CURRENT_TEMP) →
        d.length ≠ 4 → handleNotification s d = .error s) := by
  constructor
  · intro ht hlen
    subst ht
    rw [handleNotification_pending s MessageTypes.POWER d hp]
    simp [processPending, hlen]
  · intro ht hlen
    rcases ht with ht | ht <;> subst ht <;>
      [rw [handleNotification_pending s MessageTypes.TARGET_TEMP d hp];
       rw [handleNotification_pending s MessageTypes.CURRENT_TEMP d hp]] <;>
      simp [processPending, MessageTypes.POWER, MessageTypes.TARGET_TEMP,
        MessageTypes.CURRENT_TEMP, hlen]

/-- C2 (witness): a 2-byte chunk while TARGET_TEMP is pending raises, with
the pending type preserved in the post-exception state. -/
theorem C2_witness :
    handleNotification
        { initDelegate with last_message_type := some MessageTypes.TARGET_TEMP }
        [0x01, 0x00] =
      .error { initDelegate with last_message_type := some MessageTypes.TARGET_TEMP } :=
  (C2_payload_wrong_length_raises
      { initDelegate with last_message_type := some MessageTypes.TARGET_TEMP }
      MessageTypes.TARGET_TEMP [0x01, 0x00] rfl).2 (Or.inl rfl) (by decide)

/-- C3 (counterexample): from the initial all-unknown state, header
`EF DD 00` followed by the 4-byte payload `01 00 00 00` does NOT set power
on: `struct.unpack('Bxx', ...)` demands 3 bytes, so the payload chunk
raises `struct.error`, no publish happens, and power is still `None` in
the resulting state. -/
theorem C3_cex_power_scenario_4byte_payload_raises :
    runChunks initDelegate [[0xef, 0xdd, 0x00], [0x01, 0x00, 0x00, 0x00]] =
      .error { initDelegate with last_message_type := some MessageTypes.POWER } := rfl

/-- C3 (amended): POWER payloads carry 3 bytes, not 4 (only TARGET_TEMP
and CURRENT_TEMP payloads carry 4 bytes with trailing padding): header
`EF DD 00` followed by the 3-byte payload `01 00 00` moves power from
unknown to on with exactly one change event. -/
theorem C3_power_scenario_3byte_payload :
    runChunks initDelegate [[0xef, 0xdd, 0x00], [0x01, 0x00, 0x00]] =
      .ok ({ initDelegate with power := Value.str "on" },
           [("homeassistant/switch/kettle/state", Value.str "on")]) := rfl

/-- C5: whenever a CURRENT_TEMP payload is applied successfully, the
resulting `current_temp` is `"--"` (unavailable) exactly when the raw
decoded byte (payload byte 0) is below 40, and the raw value itself
otherwise — so the invariant holds after every apply. -/
theorem C5_current_temp_threshold (s : DelegateState) (d : List Nat)
    (s1 : DelegateState) (evs : List Publish)
    (hp : s.last_message_type = some MessageTypes.CURRENT_TEMP)
    (h : handleNotification s d = .ok (s1, evs)) :
    s1.current_temp =
      if d.getD 0 0 < 40 then Value.str "--" else Value.num (d.getD 0 0) := by
  rw [handleNotification_pending s MessageTypes.CURRENT_TEMP d hp] at h
  unfold processPending at h
  simp only [MessageTypes.POWER, MessageTypes.TARGET_TEMP,
    MessageTypes.CURRENT_TEMP] at h
  norm_num at h
  by_cases hlen : d.length = 4
  · rw [if_pos hlen] at h
    simp only [Except.ok.injEq, Prod.mk.injEq] at h
    obtain ⟨h1, -⟩ := h
    rw [← h1]
    simp [set_current_temp_scale_preserves, set_current_temp_fst]
  · rw [if_neg hlen] at h
    cases h

/-- C5 (witness): raw 39 gives `"--"`, raw 40 gives 40, at the boundary. -/
theorem C5_witness :
    ({ initDelegate with
        current_temp := Value.str "--"
        current_temp_scale := Value.str "°C" } : DelegateState).current_temp =
      (if (39 : Nat) < 40 then Value.str "--" else Value.num 39)
    ∧ ({ initDelegate with
        current_temp := Value.num 40
        current_temp_scale := Value.str "°C" } : DelegateState).current_temp =
      (if (40 : Nat) < 40 then Value.str "--" else Value.num 40) :=
  ⟨C5_current_temp_threshold
      { initDelegate with last_message_type := some MessageTypes.CURRENT_TEMP }
      [39, 0, 0, 0] _ _ rfl rfl,
   C5_current_temp_threshold
      { initDelegate with last_message_type := some MessageTypes.CURRENT_TEMP }
      [40, 0, 0, 0] _ _ rfl rfl⟩

/-- C6: diffing is idempotent.  If applying a payload chunk `d` under
pending message type `t` succeeds from some state and yields state `s1`
with publishes `evs`, then applying the identical chunk again under the
same pending type from `s1` publishes nothing and leaves `s1` unchanged. -/
theorem C6_apply_idempotent (s : DelegateState) (t : Nat) (d : List Nat)
    (s1 : DelegateState) (evs : List Publish)
    (h : handleNotification { s with last_message_type := some t } d = .ok (s1, evs)) :
    handleNotification { s1 with last_message_type := some t } d = .ok (s1, []) := by
  obtain ⟨p, tt, ct, tts, cts, lmt, ch⟩ := s
  rw [handleNotification_pending _ t d rfl] at h
  by_cases ht0 : t = MessageTypes.POWER
  · subst ht0
    by_cases hlen : d.length = 3
    · by_cases h0 : d.getD 0 0 = 0
      · by_cases hpow : p = Value.str "off" <;>
          · simp only [processPending, set_power, hlen, h0, hpow, eq_self_iff_true,
              if_true, if_false, Except.ok.injEq, Prod.mk.injEq] at h
            obtain ⟨rfl, rfl⟩ := h
            rw [handleNotification_pending _ MessageTypes.POWER d rfl]
            simp only [processPending, set_power, hlen, h0, eq_self_iff_true, if_true,
              if_false, Except.ok.injEq, Prod.mk.injEq, and_self]
      · by_cases h1 : d.getD 0 0 = 1
        · by_cases hpow : p = Value.str "on" <;>
            · simp only [processPending, set_power, hlen, h0, h1, hpow,
                Nat.one_ne_zero, eq_self_iff_true, if_true, if_false,
                Except.ok.injEq, Prod.mk.injEq] at h
              obtain ⟨rfl, rfl⟩ := h
              rw [handleNotification_pending _ MessageTypes.POWER d rfl]
              simp only [processPending, set_power, hlen, h0, h1, Nat.one_ne_zero,
                eq_self_iff_true, if_true, if_false, Except.ok.injEq, Prod.mk.injEq,
                and_self]
        · simp only [processPending, hlen, h0, h1, eq_self_iff_true, if_true,
            if_false, Except.ok.injEq, Prod.mk.injEq] at h
          obtain ⟨rfl, rfl⟩ := h
          rw [handleNotification_pending _ MessageTypes.POWER d rfl]
          simp only [processPending, hlen, h0, h1, eq_self_iff_true, if_true,
            if_false, Except.ok.injEq, Prod.mk.injEq, and_self]
    · simp only [processPending, hlen, eq_self_iff_true, if_true, if_false] at h
      exact Except.noConfusion h
  · have hne0 : ¬(MessageTypes.TARGET_TEMP = MessageTypes.POWER) := by decide
    have hne1 : ¬(MessageTypes.CURRENT_TEMP = MessageTypes.POWER) := by decide
    have hne2 : ¬(MessageTypes.CURRENT_TEMP = MessageTypes.TARGET_TEMP) := by decide
    by_cases ht2 : t = MessageTypes.TARGET_TEMP
    · subst ht2
      by_cases hlen : d.length = 4
      · by_cases htt : tt = Value.num (d.getD 0 0) <;>
          by_cases hsc : tts = decodeScale (d.getD 1 0) <;>
          · simp only [processPending, set_target_temp, set_target_temp_scale, hne0,
              hlen, htt, hsc, eq_self_iff_true, if_true, if_false, Except.ok.injEq,
              Prod.mk.injEq] at h
            obtain ⟨rfl, rfl⟩ := h
            rw [handleNotification_pending _ MessageTypes.TARGET_TEMP d rfl]
            simp only [processPending, set_target_temp, set_target_temp_scale, hne0,
              hlen, eq_self_iff_true, if_true, if_false, Except.ok.injEq,
              Prod.mk.injEq, and_self, List.append_nil, List.nil_append, true_and,
              and_true]
      · simp only [processPending, hne0, hlen, eq_self_iff_true, if_true,
          if_false] at h
        exact Except.noConfusion h
    · by_cases ht3 : t = MessageTypes.CURRENT_TEMP
      · subst ht3
        by_cases hlen : d.length = 4
        · by_cases hct :
              ct = (if d.getD 0 0 < 40 then Value.str "--" else Value.num (d.getD 0 0)) <;>
            by_cases hsc : cts = decodeScale (d.getD 1 0) <;>
            · simp only [processPending, set_current_temp, set_current_temp_scale,
                hne1, hne2, hlen, hct, hsc, eq_self_iff_true, if_true, if_false,
                Except.ok.injEq, Prod.mk.injEq] at h
              obtain ⟨rfl, rfl⟩ := h
              rw [handleNotification_pending _ MessageTypes.CURRENT_TEMP d rfl]
              simp only [processPending, set_current_temp, set_current_temp_scale,
                hne1, hne2, hlen, eq_self_iff_true, if_true, if_false,
                Except.ok.injEq, Prod.mk.injEq, and_self, List.append_nil,
                List.nil_append, true_and, and_true]
        · simp only [processPending, hne1, hne2, hlen, eq_self_iff_true, if_true,
            if_false] at h
          exact Except.noConfusion h
      · simp only [processPending, ht0, ht2, ht3, eq_self_iff_true, if_true,
          if_false, Except.ok.injEq, Prod.mk.injEq] at h
        obtain ⟨rfl, rfl⟩ := h
        rw [handleNotification_pending _ t d rfl]
        simp only [processPending, ht0, ht2, ht3, eq_self_iff_true, if_true,
          if_false, Except.ok.injEq, Prod.mk.injEq, and_self]

/-- C6 (witness): the CURRENT_TEMP payload `48 00 00 00` applied twice
from the initial state publishes twice on the first application and not at
all on the second. -/
theorem C6_witness :
    handleNotification
        { { initDelegate with
            current_temp := Value.num 72
            current_temp_scale := Value.str "°C" } with
          last_message_type := some MessageTypes.CURRENT_TEMP }
        [72, 0, 0, 0] =
      .ok ({ initDelegate with
              current_temp := Value.num 72
              current_temp_scale := Value.str "°C" }, []) :=
  C6_apply_idempotent
    { initDelegate with last_message_type := some MessageTypes.CURRENT_TEMP }
    MessageTypes.CURRENT_TEMP [72, 0, 0, 0]
    { initDelegate with
      current_temp := Value.num 72
      current_temp_scale := Value.str "°C" }
    [("homeassistant/sensor/kettle/temperature", Value.num 72),
     ("kitchen/kettle/temperature/scale", Value.str "°C")] rfl

end StaggKettle
